import Mathlib

/-!
Verification of the build orchestration scripts of the `motive` repository
(`build.py`, `motive/build.py`, `build_deps.py`, `getReqs.py`).

The Python scripts are shallowly embedded: every interaction with the outside
world (subprocess results, filesystem queries, package metadata, environment
variables) is a field of an explicit environment record, and the scripts become
pure functions from that environment to their return values and to a trace of
the externally visible actions they perform (prints, commands issued, exits).
-/

namespace Motive

/-! ## String helpers mirroring the Python string operations used -/

/-- Python `s.endswith(suffix)`, on the character lists of the strings. -/
def strEndsWith (sfx s : String) : Bool :=
  sfx.data.isSuffixOf s.data

/-- Substring occurrence test on character lists: Python `pat in s`. -/
def hasSubstr (pat : List Char) : List Char → Bool
  | [] => pat.isPrefixOf []
  | c :: rest => pat.isPrefixOf (c :: rest) || hasSubstr pat rest

/-- Python `pat in s` for strings. -/
def hasSubstrS (pat s : String) : Bool :=
  hasSubstr pat.data s.data

/-- Python `os.path.splitext(f)[0]`: everything before the last dot
(the whole name when there is no dot). -/
def splitextRoot (f : String) : String :=
  if f.data.contains '.' then
    ⟨((f.data.reverse.dropWhile fun c => c ≠ '.').drop 1).reverse⟩
  else f

/-- Python `f.split(".")[-1]`: the part after the last dot
(the whole name when there is no dot). -/
def lastExt (f : String) : String :=
  ⟨(f.data.reverse.takeWhile fun c => c ≠ '.').reverse⟩

/-! ## `build.py`: the library resolver (`resolve_library`)

External observations made by `resolve_library`:
the (stripped) stdout of `g++ -print-file-name=<file>`, `os.path.exists`,
`shutil.which("ldconfig")`, and the output lines of `ldconfig -p`. -/

/-- One line of `ldconfig -p` output, as the three views the code takes of it:
whether `"=>" in line`, the whitespace tokens `line.strip().split()`, and the
resolved path `line.split("=>")[-1].strip()`. -/
structure LdLine where
  hasArrow : Bool
  tokens : List String
  target : String
deriving DecidableEq

/-- Environment for `build.py`'s `resolve_library`:
`printFileName f` is the stripped stdout of `g++ -print-file-name=f`;
`libPaths` is the module-global `lib_paths` list the function reads. -/
structure ResolveEnv where
  printFileName : String → String
  fileExists : String → Bool
  libPaths : List String
  ldconfigAvailable : Bool
  ldconfigLines : List LdLine

/-- The suffix test of the ldconfig tier:
`if suffix and suffix[0] not in ".0123456789": continue`. -/
def suffixRejected (sfx : List Char) : Bool :=
  match sfx with
  | [] => false
  | c :: _ => !(".0123456789".data.contains c)

/-- A character matched by `[\w\-]` in the pattern
`lib<name>[\w\-]*\.so` (ASCII view of `\w`). -/
def wordOrHyphen (c : Char) : Bool :=
  c.isAlphanum || c = '_' || c = '-'

/-- Matches `[\w\-]*\.so` against some leading part of the list
(with backtracking, as the regex engine does). -/
def matchTailSo : List Char → Bool
  | [] => false
  | c :: rest => ".so".data.isPrefixOf (c :: rest) || (wordOrHyphen c && matchTailSo rest)

/-- `re.search` of `lib<name>[\w\-]*\.so` (with `<name>` escaped):
the pattern may match starting at any position. -/
def regexSearchLib (name : List Char) : List Char → Bool
  | [] => false
  | c :: rest =>
    (("lib".data ++ name).isPrefixOf (c :: rest) &&
      matchTailSo ((c :: rest).drop ("lib".data ++ name).length))
    || regexSearchLib name rest

/-- The body of the `for line in ldconfig_out.splitlines()` loop of
`resolve_library`, for a single line: `none` models `continue`,
`some path` models `return candidate`. -/
def ldLineMatch (fe : String → Bool) (lib_name : String) (line : LdLine) : Option String :=
  if line.hasArrow then
    match line.tokens with
    | [] => none
    | soname :: _ =>
      if ("lib" ++ lib_name).data.isPrefixOf soname.data then
        if suffixRejected (soname.data.drop ("lib" ++ lib_name).data.length) then none
        else if regexSearchLib lib_name.data soname.data then
          if fe line.target then some line.target else none
        else none
      else none
  else none

/-- Tier 1 of `resolve_library`: ask the compiler via
`g++ -print-file-name=lib<name>.so` then `.a`; succeed with `-l<name>` when the
reported path is non-empty, differs from the bare file name, and exists. -/
def tier1 (env : ResolveEnv) (lib_name : String) : Option String :=
  [".so", ".a"].findSome? fun ext =>
    let path := env.printFileName ("lib" ++ lib_name ++ ext)
    if path ≠ "" ∧ path ≠ "lib" ++ lib_name ++ ext ∧ env.fileExists path = true then
      some ("-l" ++ lib_name)
    else none

/-- Tier 2 of `resolve_library`: scan the configured `lib_paths` for
`lib<name>.a` then `lib<name>.so`; the first existing candidate path wins. -/
def tier2 (env : ResolveEnv) (lib_name : String) : Option String :=
  env.libPaths.findSome? fun base =>
    [".a", ".so"].findSome? fun ext =>
      let candidate := base ++ "/" ++ "lib" ++ lib_name ++ ext
      if env.fileExists candidate then some candidate else none

/-- Tier 3 of `resolve_library`: only when `ldconfig` is on the search path,
scan the `ldconfig -p` lines for a matching versioned shared object. -/
def tier3 (env : ResolveEnv) (lib_name : String) : Option String :=
  if env.ldconfigAvailable then
    env.ldconfigLines.findSome? (ldLineMatch env.fileExists lib_name)
  else none

/-- `build.py`'s `resolve_library`: the three tiers in order, first success
wins, `none` when all fail. -/
def resolve_library (env : ResolveEnv) (lib_name : String) : Option String :=
  match tier1 env lib_name with
  | some r => some r
  | none =>
    match tier2 env lib_name with
    | some r => some r
    | none => tier3 env lib_name

/-- One of the two accumulation loops of `collect_link_args`: returns the
resolved arguments and the missing names, each in input order. -/
def collectLoop (env : ResolveEnv) : List String → List String × List String
  | [] => ([], [])
  | lib :: rest =>
    let r := collectLoop env rest
    match resolve_library env lib with
    | some arg => (arg :: r.1, r.2)
    | none => (r.1, lib :: r.2)

/-- `build.py`'s `collect_link_args`: `error ms` models the aggregated
missing-required report followed by `sys.exit(1)`; `ok (resolved, missingOpt)`
models the returned link list together with the names in the non-fatal
"Skipping missing libraries" warning (empty list: no warning printed). -/
def collect_link_args (env : ResolveEnv) (required optional_ : List String) :
    Except (List String) (List String × List String) :=
  let r := collectLoop env required
  let o := collectLoop env optional_
  if r.2 = [] then Except.ok (r.1 ++ o.1, o.2) else Except.error r.2

/-! ## `build.py`: source discovery and the top-level compile/link pipeline -/

/-- `build.py`'s source discovery over `os.listdir(this_dir)`:
`file.endswith(".cpp") and "main" not in file`. -/
def so_sources (listing : List String) : List String :=
  listing.filter fun f => strEndsWith ".cpp" f && !hasSubstrS "main" f

/-- `build.py`'s fixed entry-point list `main_sources`. -/
def main_sources : List String := ["motive3d.cpp", "motive2d.cpp"]

/-- `motive/build.py`'s fixed entry-point list `main_sources`
(its `so_sources` scan is character-for-character the same filter). -/
def motive_main_sources : List String := ["main.cpp"]

/-- Object file derived from a source file: `f"{os.path.splitext(f)[0]}.o"`. -/
def objOf (f : String) : String := splitextRoot f ++ ".o"

/-- `build.py`'s `so_objects` list. -/
def so_objects (listing : List String) : List String :=
  (so_sources listing).map objOf

/-- `build.py`'s `core_libraries` (the required set). -/
def core_libraries : List String :=
  ["glfw3", "tinygltf", "vulkan", "avformat", "avcodec", "swscale", "avutil",
   "swresample", "freetype", "m", "pthread", "dl"]

/-- `build.py`'s `optional_libraries`. -/
def optional_libraries : List String :=
  ["png", "brotlidec", "brotlicommon", "bz2", "lzma", "drm", "z", "OpenCL",
   "X11", "Xext", "vdpau"]

/-- Shader extensions recognized by `build.py`. -/
def shaderExts : List String := ["vert", "frag", "comp"]

/-- Externally visible events of the `build.py` pipeline; each carries the
exit code of the underlying external command (0 = success). -/
inductive Ev where
  | missingRequired (libs : List String)
  | skipOptional (libs : List String)
  | shader (f : String) (code : Nat)
  | compile (f : String) (code : Nat)
  | archive (code : Nat)
  | link (bin : String) (code : Nat)
deriving DecidableEq

/-- Environment of the `build.py` top level: the resolver environment, the two
directory listings, and the exit code each external command would return. -/
structure BuildEnv where
  renv : ResolveEnv
  listing : List String
  shaderListing : List String
  shaderCode : String → Nat
  compileCode : String → Nat
  arCode : Nat
  linkCode : String → Nat

/-- The shader loop of `build.py`: files without a recognized extension are
skipped; the first failing `glslangValidator` run exits with its code. -/
def shaderPhase (env : BuildEnv) : List String → List Ev × Option Nat
  | [] => ([], none)
  | f :: rest =>
    if shaderExts.contains (lastExt f) then
      let c := env.shaderCode f
      if c = 0 then
        let r := shaderPhase env rest
        (Ev.shader f 0 :: r.1, r.2)
      else ([Ev.shader f c], some c)
    else shaderPhase env rest

/-- The parallel compile phase. `compile_cpp_to_o` calls `sys.exit` on failure,
but it runs inside a `ThreadPoolExecutor` worker: the `SystemExit` is captured
in a `Future` that the script never reads, so every unit is compiled, failures
only print, and the main thread continues regardless. The trace records one
event (with the unit's compiler exit code) per source; the pool's scheduling
order is abstracted to submission order. -/
def compilePhase (env : BuildEnv) (sources : List String) : List Ev :=
  sources.map fun f => Ev.compile f (env.compileCode f)

/-- The executable-link loop of `build.py`: sequential over `main_sources`,
the first failing link exits with its code. -/
def linkPhase (env : BuildEnv) : List String → List Ev × Nat
  | [] => ([], 0)
  | src :: rest =>
    let bin := splitextRoot src
    let c := env.linkCode bin
    if c = 0 then
      let r := linkPhase env rest
      (Ev.link bin 0 :: r.1, r.2)
    else ([Ev.link bin c], c)

/-- The `build.py` top level, parameterized (as `collect_link_args` is) by the
required and optional library lists; the script instantiates them with
`core_libraries` and `optional_libraries`. Returns the event trace and the
process exit code. Order of phases as in the script: link-argument collection,
shader compilation, parallel source compilation, `ar` archive, executable
links. -/
def runBuild (env : BuildEnv) (required optional_ : List String) : List Ev × Nat :=
  match collect_link_args env.renv required optional_ with
  | .error missing => ([Ev.missingRequired missing], 1)
  | .ok (_, missingOpt) =>
    let warn := if missingOpt = [] then [] else [Ev.skipOptional missingOpt]
    let s := shaderPhase env env.shaderListing
    match s.2 with
    | some c => (warn ++ s.1, c)
    | none =>
      let ct := compilePhase env (so_sources env.listing ++ main_sources)
      if env.arCode = 0 then
        let l := linkPhase env main_sources
        (warn ++ s.1 ++ ct ++ [Ev.archive 0] ++ l.1, l.2)
      else (warn ++ s.1 ++ ct ++ [Ev.archive env.arCode], env.arCode)

/-! ## `build_deps.py` and `getReqs.py`: bootstrap of the dependencies

Each `setup_*` function becomes a pure function from an environment to the
list of externally visible actions it performs, in order. `run_command`
failures exit the process, so later actions are cut off; this is modelled in
continuation style. -/

/-- Externally visible actions of the bootstrap scripts. -/
inductive DAct where
  | echo (s : String)
  | run (cmd : String) (cwd : Option String)
  | mkdirA (path : String)
  | writeF (path contents : String)
  | exitA (code : Nat)
deriving DecidableEq

/-- Environment of the bootstrap scripts. `pkgExistsAfterApt` is the result of
re-probing `pkg-config` after the X11 `apt-get install` attempt;
`vulkanHeaderParse` holds the `(major, minor, VK_HEADER_VERSION)` strings the
two regexes extract from `vulkan_core.h` (`none`: parsing failed);
`resolvePath` models `Path.resolve()`. -/
structure DepsEnv where
  pathExists : String → Bool
  detached : String → Bool
  cmdOk : String → Bool
  pkgExists : String → Bool
  pkgExistsAfterApt : String → Bool
  pkgVersion : String → Option String
  whichFound : String → Bool
  envVar : String → Option String
  home : String
  cpuCount : Nat
  vulkanHeaderParse : Option (String × String × String)
  resolvePath : String → String

/-- `is_detached_head`: `git symbolic-ref --quiet HEAD` returned non-zero. -/
def is_detached_head (env : DepsEnv) (dir : String) : Bool :=
  env.detached dir

/-- `run_command(cmd, cwd)` followed by the continuation `k`: on failure the
script prints the failing command and exits 1, so `k` never runs. -/
def run_command (env : DepsEnv) (cmd : String) (cwd : Option String)
    (k : List DAct) : List DAct :=
  if env.cmdOk cmd then DAct.run cmd cwd :: k
  else [DAct.run cmd cwd, DAct.echo ("Command failed: " ++ cmd), DAct.exitA 1]

/-- `ensure_exists_or_exit(directory)` followed by the continuation `k`. -/
def ensure_exists_or_exit (env : DepsEnv) (dir : String) (k : List DAct) : List DAct :=
  if env.pathExists dir then k
  else
    [DAct.echo ("Missing required folder: " ++ dir),
     DAct.echo "Please fetch all submodules with:",
     DAct.echo "    git submodule update --init --recursive",
     DAct.exitA 1]

/-- `build_deps.py`'s `setup_vulkan_headers`. -/
def setup_vulkan_headers (env : DepsEnv) : List DAct :=
  ensure_exists_or_exit env "Vulkan-Headers" <|
    DAct.echo "Vulkan-Headers exists, checking for updates..." ::
    if is_detached_head env "Vulkan-Headers" then
      [DAct.echo "Vulkan-Headers is detached (pinned submodule commit); skipping git pull."]
    else
      run_command env "git pull" (some "Vulkan-Headers") []

/-- `getReqs.py`'s `setup_vulkan_headers`: clone when absent, otherwise always
`git pull` — the revision state is never consulted. -/
def getReqs_setup_vulkan_headers (env : DepsEnv) : List DAct :=
  if !env.pathExists "Vulkan-Headers" then
    DAct.echo "Cloning Vulkan-Headers..." ::
    run_command env "git clone https://github.com/KhronosGroup/Vulkan-Headers.git" none []
  else
    DAct.echo "Vulkan-Headers already exists, pulling latest changes..." ::
    run_command env "git pull" (some "Vulkan-Headers") []

/-- The pkg-config package names probed for X11 support in `setup_glfw`. -/
def x11Pkgs : List String := ["x11", "xcursor", "xrandr", "xi"]

/-- The cmake-flag computation and build tail of `setup_glfw`, after
`have_wayland` / `have_x11` have reached their final values. -/
def glfwBuild (env : DepsEnv) (have_wayland have_x11 : Bool) : List DAct :=
  let flags0 := ["-DCMAKE_BUILD_TYPE=Release"]
  let p1 :=
    if !have_wayland then
      ([DAct.echo "wayland-client dev package not found; building GLFW with Wayland disabled.",
        DAct.echo "To enable Wayland, install: libwayland-dev libxkbcommon-dev wayland-protocols"],
       flags0 ++ ["-DGLFW_BUILD_WAYLAND=OFF"])
    else ([], flags0)
  let p2 :=
    if have_wayland && !have_x11 then
      ([DAct.echo "X11/Xcursor dev packages not found; building GLFW with X11 disabled (Wayland only).",
        DAct.echo "To enable X11, install: libx11-dev libxcursor-dev libxrandr-dev libxinerama-dev libxi-dev"],
       p1.2 ++ ["-DGLFW_BUILD_X11=OFF"])
    else ([], p1.2)
  p1.1 ++ p2.1 ++
  run_command env ("cmake .. " ++ String.intercalate " " p2.2) (some "glfw/build")
    (run_command env ("make -j" ++ toString env.cpuCount) (some "glfw/build")
      [DAct.echo "GLFW built locally in glfw/build"])

/-- The `if not have_x11` re-check after the apt-get attempt in `setup_glfw`. -/
def glfwAfterApt (env : DepsEnv) (have_wayland have_x11 : Bool) : List DAct :=
  if !have_x11 then
    [DAct.echo "Install at least one set of dev packages and rerun build_deps.py.",
     DAct.echo "For X11 on Ubuntu: sudo apt-get install libx11-dev libxcursor-dev libxrandr-dev libxinerama-dev libxi-dev",
     DAct.echo "For Wayland on Ubuntu: sudo apt-get install libwayland-dev libxkbcommon-dev wayland-protocols",
     DAct.exitA 1]
  else glfwBuild env have_wayland have_x11

/-- `build_deps.py`'s `setup_glfw`: no detection of existing build artifacts —
cmake and make are invoked on every run that reaches them. -/
def setup_glfw (env : DepsEnv) : List DAct :=
  ensure_exists_or_exit env "glfw" <|
    DAct.mkdirA "glfw/build" ::
    DAct.echo "Building GLFW..." ::
    (let have_wayland := env.pkgExists "wayland-client"
     let have_x11 := x11Pkgs.all env.pkgExists
     if !have_wayland && !have_x11 then
       DAct.echo "Neither Wayland nor X11 development headers were found." ::
       DAct.echo "Attempting to install X11 dev headers via apt-get..." ::
       (if env.whichFound "apt-get" then
          run_command env
            "sudo apt-get update && sudo apt-get install -y libx11-dev libxcursor-dev libxrandr-dev libxinerama-dev libxi-dev"
            none
            (glfwAfterApt env have_wayland (x11Pkgs.all env.pkgExistsAfterApt))
        else
          DAct.echo "apt-get not available; cannot auto-install X11 dependencies." ::
          glfwAfterApt env have_wayland have_x11)
     else glfwBuild env have_wayland have_x11)

/-- `build_deps.py`'s `setup_tinygltf`: the only dependency whose build step is
skipped on detection of its compiled artifact (`tinygltf/tiny_gltf.o`). -/
def setup_tinygltf (env : DepsEnv) : List DAct :=
  ensure_exists_or_exit env "tinygltf" <|
    if env.pathExists "tinygltf/tiny_gltf.o" then []
    else
      DAct.echo "Building tinygltf..." ::
      run_command env "g++ -c -std=c++11 -fPIC tinygltf/tiny_gltf.cc -o tinygltf/tiny_gltf.o" none
        (run_command env "ar rcs libtinygltf.a tinygltf/tiny_gltf.o" none
          [DAct.echo "tinygltf built as static library"])

/-- `build_deps.py`'s `setup_glm`. -/
def setup_glm (env : DepsEnv) : List DAct :=
  ensure_exists_or_exit env "glm"
    [DAct.echo "GLM found (header-only library, no build required)"]

/-- `build_deps.py`'s `setup_ffnvcodec`: skipped when the system install
directory already exists. -/
def setup_ffnvcodec (env : DepsEnv) : List DAct :=
  if env.pathExists "/usr/include/ffnvcodec" then
    [DAct.echo "nv-codec-headers already installed in /usr/include/ffnvcodec; skipping."]
  else
    let build :=
      DAct.echo "Building nv-codec-headers..." ::
      run_command env "make" (some "nv-codec-headers")
        (DAct.echo "Installing nv-codec-headers (requires sudo)..." ::
          run_command env "sudo make install" (some "nv-codec-headers") [])
    if !env.pathExists "nv-codec-headers" then
      DAct.echo "Cloning nv-codec-headers..." ::
      run_command env "git clone https://github.com/FFmpeg/nv-codec-headers.git nv-codec-headers" none build
    else build

/-! ### The feature prober (`determine_hwaccel_flags` and its probes) -/

/-- `pkg_config_exists(package)`. -/
def pkg_config_exists (env : DepsEnv) (package : String) : Bool :=
  env.pkgExists package

/-- Python truthiness of an optional string: `None` and `""` are falsy. -/
def getTruthy (o : Option String) : Option String :=
  match o with
  | some s => if s = "" then none else some s
  | none => none

/-- `cuda_available`: `nvcc` on the search path, or a truthy `CUDA_HOME` /
`CUDA_PATH` pointing at an existing directory, or `/usr/local/cuda` existing. -/
def cuda_available (env : DepsEnv) : Bool :=
  if env.whichFound "nvcc" then true
  else
    match getTruthy (env.envVar "CUDA_HOME") with
    | some s => if env.pathExists s then true else env.pathExists "/usr/local/cuda"
    | none =>
      match getTruthy (env.envVar "CUDA_PATH") with
      | some s => if env.pathExists s then true else env.pathExists "/usr/local/cuda"
      | none => env.pathExists "/usr/local/cuda"

/-- `ffnvcodec_available`: any candidate directory (optional override first,
then the two system paths, then `~/.local/include/ffnvcodec`) containing one of
the two NVIDIA header files. -/
def ffnvcodec_available (env : DepsEnv) : Bool :=
  let base :=
    match getTruthy (env.envVar "FFNV_CODEC_INCLUDE") with
    | some p => [p]
    | none => []
  let candidates :=
    base ++ ["/usr/include/ffnvcodec", "/usr/local/include/ffnvcodec",
             env.home ++ "/.local/include/ffnvcodec"]
  candidates.any fun d =>
    env.pathExists (d ++ "/nvEncodeAPI.h") || env.pathExists (d ++ "/nvDecodeAPI.h")

/-- The `pkg_features` table of `determine_hwaccel_flags`:
(configure flag, probe packages, human-readable description). -/
def pkg_features : List (String × List String × String) :=
  [("--enable-libdrm", ["libdrm"], "libdrm"),
   ("--enable-vaapi", ["libva"], "VAAPI"),
   ("--enable-vdpau", ["vdpau"], "VDPAU"),
   ("--enable-opencl", ["OpenCL"], "OpenCL")]

/-- The CUDA configure flags enabled as a block. -/
def cuda_flags : List String :=
  ["--enable-cuda", "--enable-cuvid", "--enable-nvdec", "--enable-nvenc"]

/-- The probe loop over `pkg_features`: returns (flags, enabled descriptions,
skipped descriptions), each in table order. -/
def probeFeatures (env : DepsEnv) :
    List (String × List String × String) → List String × List String × List String
  | [] => ([], [], [])
  | (flag, packages, description) :: rest =>
    let r := probeFeatures env rest
    if packages.all (pkg_config_exists env) then
      (flag :: r.1, description :: r.2.1, r.2.2)
    else (r.1, r.2.1, description :: r.2.2)

/-- The required Vulkan header version constant of `determine_hwaccel_flags`. -/
def vulkan_required : String := "1.3.277"

/-- The always-appended Vulkan skip message: the probe result is reported but
deliberately bypassed ("Always skip Vulkan for now"). -/
def vulkanSkipMsg (env : DepsEnv) : String :=
  let base := "Vulkan (requires >= " ++ vulkan_required
  let withV :=
    match env.pkgVersion "vulkan" with
    | some v => base ++ ", found " ++ v ++ ")"
    | none => base ++ ", not found)"
  withV ++ " - disabled due to header issues"

/-- Result record of `determine_hwaccel_flags`. -/
structure HwaccelResult where
  flags : List String
  enabled_descriptions : List String
  skipped_descriptions : List String
deriving DecidableEq

/-- `build_deps.py`'s `determine_hwaccel_flags`. -/
def determine_hwaccel_flags (env : DepsEnv) : HwaccelResult :=
  let p := probeFeatures env pkg_features
  let skippedWithVulkan := p.2.2 ++ [vulkanSkipMsg env]
  if cuda_available env && ffnvcodec_available env then
    ⟨p.1 ++ cuda_flags, p.2.1 ++ ["CUDA/NVDEC"], skippedWithVulkan⟩
  else
    ⟨p.1, p.2.1,
     skippedWithVulkan ++ ["CUDA/NVDEC (requires CUDA toolkit + ffnvcodec headers)"]⟩

/-! ### `setup_ffmpeg` and `setup_freetype` -/

/-- Contents of the generated `vulkan.pc` file, given the full version string. -/
def vulkanPcContents (env : DepsEnv) (fullVersion : String) : String :=
  "prefix=" ++ env.resolvePath "Vulkan-Headers" ++ "\n" ++
  "includedir=$\x7bprefix\x7d/include\n\nName: vulkan\nDescription: Vulkan Headers (local)\nVersion: " ++
  fullVersion ++ "\nCflags: -I$\x7bincludedir\x7d\nLibs:\n"

/-- `ensure_local_vulkan_pc`, with `k` receiving the pkg-config directory. -/
def ensure_local_vulkan_pc (env : DepsEnv) (k : String → List DAct) : List DAct :=
  ensure_exists_or_exit env "Vulkan-Headers/include/vulkan/vulkan_core.h" <|
    match env.vulkanHeaderParse with
    | none => [DAct.echo "Could not parse Vulkan header version from Vulkan-Headers.", DAct.exitA 1]
    | some (major, minor, headerVersion) =>
      DAct.mkdirA "Vulkan-Headers/.pkgconfig" ::
      DAct.writeF "Vulkan-Headers/.pkgconfig/vulkan.pc"
        (vulkanPcContents env (major ++ "." ++ minor ++ "." ++ headerVersion)) ::
      k "Vulkan-Headers/.pkgconfig"

/-- The `PKG_CONFIG_PATH` value exported by `setup_ffmpeg`: the local
pkg-config directory, then any pre-existing (truthy) value. -/
def pcEnvString (env : DepsEnv) (dir : String) : String :=
  match getTruthy (env.envVar "PKG_CONFIG_PATH") with
  | some s => dir ++ ":" ++ s
  | none => dir

/-- The FFmpeg `configure` command line built by `setup_ffmpeg`. -/
def ffmpegConfigureCmd (pcEnv installPfx : String) (flags : List String) : String :=
  "PKG_CONFIG_PATH=" ++ pcEnv ++ " ../configure --prefix=" ++ installPfx ++
  " --enable-static --disable-shared --enable-pic --disable-programs --disable-doc --enable-gpl --enable-version3 " ++
  String.intercalate " " flags

/-- The nasm availability check of `setup_ffmpeg`. -/
def nasmCheck (env : DepsEnv) (k : List DAct) : List DAct :=
  if env.whichFound "nasm" then k
  else
    DAct.echo "nasm assembler not found. Attempting to install via apt-get..." ::
    (if env.whichFound "apt-get" then
       run_command env "sudo apt-get update && sudo apt-get install -y nasm" none k
     else
       [DAct.echo "apt-get not available; please install nasm manually and re-run.",
        DAct.exitA 1])

/-- The build tail of `setup_ffmpeg` (everything after the clone/pull step). -/
def ffmpegBuild (env : DepsEnv) : List DAct :=
  nasmCheck env <|
    ensure_local_vulkan_pc env fun pcDir =>
      let pcEnv := pcEnvString env (env.resolvePath pcDir)
      let installPfx := env.resolvePath "FFmpeg/.ffmpeg"
      let hw := determine_hwaccel_flags env
      DAct.echo "Configuring and building FFmpeg with static libraries..." ::
      DAct.mkdirA "FFmpeg/.build" ::
      DAct.mkdirA "FFmpeg/.ffmpeg" ::
      (if hw.flags.isEmpty then
         DAct.echo "No optional FFmpeg hardware decode features detected."
       else
         DAct.echo ("Enabling FFmpeg hardware decode features: " ++
           String.intercalate ", " hw.enabled_descriptions)) ::
      (if hw.skipped_descriptions.isEmpty then []
       else
         [DAct.echo ("Skipping unavailable hardware features: " ++
           String.intercalate ", " hw.skipped_descriptions)]) ++
      run_command env (ffmpegConfigureCmd pcEnv installPfx hw.flags) (some "FFmpeg/.build")
        (run_command env ("make -j" ++ toString env.cpuCount) (some "FFmpeg/.build")
          (run_command env "make install" (some "FFmpeg/.build")
            [DAct.echo ("FFmpeg built and installed to " ++ installPfx ++ " with static libraries")]))

/-- `build_deps.py`'s `setup_ffmpeg`: note the early `return` in the detached
case, which skips the pull and the whole build. -/
def setup_ffmpeg (env : DepsEnv) : List DAct :=
  if env.pathExists "FFmpeg" then
    DAct.echo "FFmpeg repository already present, pulling latest changes..." ::
    (if is_detached_head env "FFmpeg" then
       [DAct.echo "FFmpeg repository is detached; skipping git pull."]
     else run_command env "git pull" (some "FFmpeg") (ffmpegBuild env))
  else
    DAct.echo "Cloning FFmpeg repository..." ::
    run_command env "git clone https://github.com/FFmpeg/FFmpeg.git FFmpeg" none
      (DAct.echo "FFmpeg repository cloned." :: ffmpegBuild env)

/-- The build tail of `setup_freetype` (always executed once the tree exists). -/
def freetypeBuild (env : DepsEnv) : List DAct :=
  DAct.mkdirA "freetype/build" ::
  DAct.mkdirA "freetype/build/install" ::
  DAct.echo "Configuring FreeType..." ::
  run_command env
    "cmake .. -DCMAKE_BUILD_TYPE=Release -DBUILD_SHARED_LIBS=OFF -DCMAKE_POSITION_INDEPENDENT_CODE=ON -DCMAKE_INSTALL_PREFIX=freetype/build/install"
    (some "freetype/build")
    (DAct.echo "Building FreeType..." ::
      run_command env ("make -j" ++ toString env.cpuCount) (some "freetype/build")
        (run_command env "make install" (some "freetype/build")
          [DAct.echo "FreeType built and installed to freetype/build/install"]))

/-- `build_deps.py`'s `setup_freetype`: detached skips only the pull, not the
build. -/
def setup_freetype (env : DepsEnv) : List DAct :=
  if env.pathExists "freetype" then
    DAct.echo "FreeType repository already present, pulling latest changes..." ::
    (if is_detached_head env "freetype" then
       DAct.echo "FreeType repository is detached; skipping git pull." :: freetypeBuild env
     else run_command env "git pull" (some "freetype") (freetypeBuild env))
  else
    DAct.echo "Cloning FreeType repository..." ::
    run_command env "git clone https://github.com/freetype/freetype.git freetype" none
      (DAct.echo "FreeType repository cloned." :: freetypeBuild env)

/-! ## Concrete environments used by witnesses and counterexamples -/

/-- Environment in which no library resolves through any tier. -/
def c1env : BuildEnv :=
  ⟨⟨fun _ => "", fun _ => false, ["/opt"], false, []⟩, [], [],
   fun _ => 0, fun _ => 0, 0, fun _ => 0⟩

/-- Environment in which every library resolves via tier 1, shaders and links
succeed, but the compile of `engine.cpp` exits with code 2. -/
def c2env : BuildEnv :=
  ⟨⟨fun _ => "/x", fun _ => true, [], false, []⟩,
   ["engine.cpp"], [], fun _ => 0,
   fun f => if f == "engine.cpp" then 2 else 0, 0, fun _ => 0⟩

/-- Environment where `m` resolves via tier 1, `z` only via the ldconfig
cache, and `png` nowhere. -/
def c4env : BuildEnv :=
  ⟨⟨fun s => if s == "libm.so" then "/usr/lib/libm.so" else "",
    fun p => p == "/usr/lib/libm.so" || p == "/usr/lib/libz.so.1",
    ["/opt"], true, [⟨true, ["libz.so.1"], "/usr/lib/libz.so.1"⟩]⟩,
   [], [], fun _ => 0, fun _ => 0, 0, fun _ => 0⟩

/-- Environment whose compiler reports an existing path for every query. -/
def c8env : ResolveEnv :=
  ⟨fun _ => "/usr/lib/gcc/found", fun _ => true, [], false, []⟩

/-- Environment where tiers 1 and 2 fail, `ldconfig` is absent from the search
path, yet the cache lines contain an entry that would match `z`. -/
def c10env : ResolveEnv :=
  ⟨fun _ => "", fun p => p == "/usr/lib/libz.so.1", ["/opt"], false,
   [⟨true, ["libz.so.1"], "/usr/lib/libz.so.1"⟩]⟩

/-- Bootstrap environment with no optional feature available at all. -/
def c9env : DepsEnv :=
  ⟨fun _ => false, fun _ => false, fun _ => false, fun _ => false, fun _ => false,
   fun _ => none, fun _ => false, fun _ => none, "/root", 1, none, fun p => p⟩

/-- Bootstrap environment: every tree present, every repository pinned
(detached HEAD), every command succeeding. -/
def grPinnedEnv : DepsEnv :=
  ⟨fun _ => true, fun _ => true, fun _ => true, fun _ => true, fun _ => true,
   fun _ => none, fun _ => true, fun _ => none, "/root", 4, some ("1", "3", "290"),
   fun p => p⟩

/-- Like `grPinnedEnv`, for the `build_deps.py` witnesses. -/
def bdPinnedEnv : DepsEnv :=
  ⟨fun _ => true, fun _ => true, fun _ => true, fun _ => true, fun _ => true,
   fun _ => none, fun _ => true, fun _ => none, "/root", 4, some ("1", "3", "290"),
   fun p => p⟩

/-- Bootstrap environment: every tree present, every repository on a branch. -/
def bdTrackingEnv : DepsEnv :=
  ⟨fun _ => true, fun _ => false, fun _ => true, fun _ => true, fun _ => true,
   fun _ => none, fun _ => true, fun _ => none, "/root", 4, some ("1", "3", "290"),
   fun p => p⟩

/-- Bootstrap environment in which all dependency trees and all build
artifacts from a previous run are present. -/
def c7BuiltEnv : DepsEnv :=
  ⟨fun _ => true, fun _ => true, fun _ => true, fun _ => true, fun _ => true,
   fun _ => none, fun _ => true, fun _ => none, "/root", 4, some ("1", "3", "290"),
   fun p => p⟩

/-- Bootstrap environment with artifacts present and repositories tracking. -/
def c7SkipEnv : DepsEnv :=
  ⟨fun _ => true, fun _ => false, fun _ => true, fun _ => true, fun _ => true,
   fun _ => none, fun _ => true, fun _ => none, "/home/u", 8, some ("1", "3", "290"),
   fun p => p⟩

/-! ## General lemmas about the embedded definitions -/

/-- Characterization of a successful per-line ldconfig match: the line has an
arrow, its first token starts with `lib<name>`, the suffix is not rejected, the
regex search succeeds, and the resolved path exists. -/
theorem ldLineMatch_eq_some (fe : String → Bool) (lib_name : String) (line : LdLine)
    (p : String) :
    ldLineMatch fe lib_name line = some p ↔
      line.hasArrow = true ∧
      (∃ soname rest, line.tokens = soname :: rest ∧
        ("lib" ++ lib_name).data.isPrefixOf soname.data = true ∧
        suffixRejected (soname.data.drop ("lib" ++ lib_name).data.length) = false ∧
        regexSearchLib lib_name.data soname.data = true) ∧
      fe line.target = true ∧ p = line.target := by
  unfold ldLineMatch
  cases harrow : line.hasArrow
  · simp [harrow]
  · cases htok : line.tokens with
    | nil => simp [htok]
    | cons soname rest =>
      simp only [htok, if_true]
      constructor
      · intro h
        split at h
        · split at h
          · exact absurd h (by simp)
          · split at h
            · split at h
              · rename_i hpfx hsuf hre hfe
                cases h
                refine ⟨trivial, ⟨soname, rest, rfl, hpfx, ?_, hre⟩, hfe, rfl⟩
                rwa [Bool.not_eq_true] at hsuf
              · exact absurd h (by simp)
            · exact absurd h (by simp)
        · exact absurd h (by simp)
      · rintro ⟨-, ⟨soname', rest', heq, hpfx, hsuf, hre⟩, hfe, rfl⟩
        injection heq with h1 h2
        subst h1
        rw [if_pos hpfx, if_neg ?hns, if_pos hre, if_pos hfe]
        case hns =>
          intro hc
          rw [hsuf] at hc
          cases hc

/-- A satisfied tier-1 condition for either extension makes tier 1 succeed
with the `-l` flag form. -/
theorem tier1_succeeds (env : ResolveEnv) (name ext : String)
    (hext : ext = ".so" ∨ ext = ".a")
    (hne : env.printFileName ("lib" ++ name ++ ext) ≠ "")
    (hbare : env.printFileName ("lib" ++ name ++ ext) ≠ "lib" ++ name ++ ext)
    (hex : env.fileExists (env.printFileName ("lib" ++ name ++ ext)) = true) :
    tier1 env name = some ("-l" ++ name) := by
  unfold tier1
  simp only [List.findSome?]
  rcases hext with h | h
  · subst h
    rw [if_pos ⟨hne, hbare, hex⟩]
  · subst h
    by_cases hso : env.printFileName ("lib" ++ name ++ ".so") ≠ "" ∧
        env.printFileName ("lib" ++ name ++ ".so") ≠ "lib" ++ name ++ ".so" ∧
        env.fileExists (env.printFileName ("lib" ++ name ++ ".so")) = true
    · rw [if_pos hso]
    · rw [if_neg hso]
      simp only [List.findSome?]
      rw [if_pos ⟨hne, hbare, hex⟩]

/-- The accumulation loops of `collect_link_args` compute a `filterMap` of the
resolutions and a `filter` of the unresolved names. -/
theorem collectLoop_eq (env : ResolveEnv) (libs : List String) :
    collectLoop env libs =
      (libs.filterMap (resolve_library env),
       libs.filter fun l => (resolve_library env l).isNone) := by
  induction libs with
  | nil => rfl
  | cons l rest ih =>
    unfold collectLoop
    rw [ih]
    cases h : resolve_library env l <;>
      simp [List.filterMap_cons, List.filter_cons, h]

/-- When every recognized shader compiles, the shader phase does not exit. -/
theorem shaderPhase_all_ok (env : BuildEnv) (L : List String)
    (h : ∀ f ∈ L, env.shaderCode f = 0) : (shaderPhase env L).2 = none := by
  induction L with
  | nil => rfl
  | cons f rest ih =>
    unfold shaderPhase
    by_cases hc : shaderExts.contains (lastExt f)
    · rw [if_pos hc, h f (by simp)]
      simpa using ih fun g hg => h g (by simp [hg])
    · rw [if_neg hc]
      exact ih fun g hg => h g (by simp [hg])

/-- When every executable links, the link phase exits with code 0. -/
theorem linkPhase_all_ok (env : BuildEnv) (L : List String)
    (h : ∀ s ∈ L, env.linkCode (splitextRoot s) = 0) : (linkPhase env L).2 = 0 := by
  induction L with
  | nil => rfl
  | cons s rest ih =>
    unfold linkPhase
    dsimp only
    rw [h s (by simp)]
    simpa using ih fun g hg => h g (by simp [hg])

/-- Every flag emitted by the probe loop is the flag of one of its table
entries. -/
theorem probeFeatures_flags_sub (env : DepsEnv) (L : List (String × List String × String)) :
    ∀ f ∈ (probeFeatures env L).1, f ∈ L.map fun x => x.1 := by
  induction L with
  | nil => intro f hf; cases hf
  | cons e rest ih =>
    obtain ⟨flag, packages, description⟩ := e
    intro f hf
    unfold probeFeatures at hf
    dsimp only at hf
    split at hf
    · rcases List.mem_cons.mp hf with rfl | hf
      · simp
      · simp only [List.map_cons, List.mem_cons]
        exact Or.inr (ih f hf)
    · simp only [List.map_cons, List.mem_cons]
      exact Or.inr (ih f hf)

/-- `run_command` always issues its command, whether or not it succeeds. -/
theorem run_command_self_mem (env : DepsEnv) (cmd : String) (cwd : Option String)
    (k : List DAct) : DAct.run cmd cwd ∈ run_command env cmd cwd k := by
  unfold run_command
  split <;> simp

/-- Anything in a `run_command` trace is the command itself, its failure
report, the exit, or part of the continuation. -/
theorem run_command_mem (env : DepsEnv) (cmd : String) (cwd : Option String)
    (k : List DAct) (x : DAct) (h : x ∈ run_command env cmd cwd k) :
    x = DAct.run cmd cwd ∨ x = DAct.echo ("Command failed: " ++ cmd) ∨
      x = DAct.exitA 1 ∨ x ∈ k := by
  unfold run_command at h
  split at h <;> simp only [List.mem_cons, List.mem_singleton, List.not_mem_nil] at h <;> tauto

/-- No `make -j<N>` command is the string `git pull`. -/
theorem makeJ_ne_gitpull (s : String) : "make -j" ++ s ≠ "git pull" := by
  intro h
  have h2 : ("make -j" ++ s).data = "git pull".data := congrArg String.data h
  have h3 : ("make -j" ++ s).data = 'm' :: 'a' :: 'k' :: 'e' :: ' ' :: '-' :: 'j' :: s.data := rfl
  rw [h3] at h2
  have h4 : "git pull".data = ['g', 'i', 't', ' ', 'p', 'u', 'l', 'l'] := rfl
  rw [h4] at h2
  injection h2 with h5 _
  exact absurd h5 (by decide)

/-- The FreeType build tail never issues a `git pull`. -/
theorem freetypeBuild_no_pull (env : DepsEnv) (c : Option String) :
    DAct.run "git pull" c ∉ freetypeBuild env := by
  intro h
  unfold freetypeBuild at h
  simp only [List.mem_cons] at h
  rcases h with h | h | h | h
  · cases h
  · cases h
  · cases h
  rcases run_command_mem _ _ _ _ _ h with h | h | h | h
  · simp at h
  · cases h
  · cases h
  simp only [List.mem_cons] at h
  rcases h with h | h
  · cases h
  rcases run_command_mem _ _ _ _ _ h with h | h | h | h
  · injection h with h5 _
    exact makeJ_ne_gitpull _ h5.symm
  · cases h
  · cases h
  rcases run_command_mem _ _ _ _ _ h with h | h | h | h
  · simp at h
  · cases h
  · cases h
  simp only [List.mem_singleton] at h
  cases h

/-! ## The claims -/

/-- Claim C1: whenever at least one required library fails to resolve through
every tier, the pipeline emits a single aggregated missing-required report
that names exactly the required libraries that failed to resolve (all of them,
independent of order), exits with a non-zero code, and performs no shader, no
compile, no archive and no link action (the report is the whole trace). -/
theorem C1_missing_required_aggregated (env : BuildEnv) (required optional_ : List String)
    (h : ∃ l, l ∈ required ∧ resolve_library env.renv l = none) :
    ∃ missing,
      runBuild env required optional_ = ([Ev.missingRequired missing], 1) ∧
      ∀ l, l ∈ missing ↔ l ∈ required ∧ resolve_library env.renv l = none := by
  obtain ⟨l0, hl0, hnone⟩ := h
  refine ⟨required.filter fun l => (resolve_library env.renv l).isNone, ?_, ?_⟩
  · have hne : (required.filter fun l => (resolve_library env.renv l).isNone) ≠ [] := by
      intro hc
      have hm : l0 ∈ required.filter fun l => (resolve_library env.renv l).isNone :=
        List.mem_filter.mpr ⟨hl0, by simp [hnone]⟩
      rw [hc] at hm
      cases hm
    unfold runBuild collect_link_args
    rw [collectLoop_eq, collectLoop_eq]
    simp only [if_neg hne]
  · intro l
    simp [List.mem_filter, Option.isNone_iff_eq_none]

/-- Claim C1, witness: with nothing resolvable and required list
`[vulkan, glfw3]`, the trace is exactly one aggregated report naming both. -/
theorem C1_witness :
    (∃ l, l ∈ ["vulkan", "glfw3"] ∧ resolve_library c1env.renv l = none) ∧
    ∃ missing,
      runBuild c1env ["vulkan", "glfw3"] ["png"] = ([Ev.missingRequired missing], 1) ∧
      ∀ l, l ∈ missing ↔ l ∈ ["vulkan", "glfw3"] ∧ resolve_library c1env.renv l = none := by
  have h : ∃ l, l ∈ ["vulkan", "glfw3"] ∧ resolve_library c1env.renv l = none :=
    ⟨"vulkan", by decide, by decide⟩
  exact ⟨h, C1_missing_required_aggregated c1env _ _ h⟩

/-- Claim C2 (code bug, behavior at the failing input): `compile_cpp_to_o`
calls `sys.exit` inside a `ThreadPoolExecutor` worker, so the `SystemExit` is
captured in a `Future` the script never reads and the failure is not fatal:
with `engine.cpp` failing to compile (exit code 2), the archive step and both
executable links are still executed and the script exits 0, contradicting the
claim that the pipeline stops before any link attempt. -/
theorem C2_compile_failure_not_fatal :
    (runBuild c2env core_libraries optional_libraries).2 = 0 ∧
    Ev.compile "engine.cpp" 2 ∈ (runBuild c2env core_libraries optional_libraries).1 ∧
    Ev.archive 0 ∈ (runBuild c2env core_libraries optional_libraries).1 ∧
    Ev.link "motive3d" 0 ∈ (runBuild c2env core_libraries optional_libraries).1 ∧
    Ev.link "motive2d" 0 ∈ (runBuild c2env core_libraries optional_libraries).1 := by
  decide

/-- Claim C3: in the tier-3 cache lookup, (i) an entry whose soname extends
`lib<name>` with a suffix starting with a character that is neither a dot nor
a digit is rejected; (ii) probing `ssl` never matches the entry
`libssl3-custom` (whatever the arrow flag, remaining tokens, target path and
filesystem); (iii) an entry is accepted only if its resolved path exists on
disk, and the accepted value is that path. -/
theorem C3_cache_suffix_filter :
    (∀ (fe : String → Bool) (lib_name : String) (line : LdLine) (soname : String)
        (rest : List String),
        line.tokens = soname :: rest →
        suffixRejected (soname.data.drop ("lib" ++ lib_name).data.length) = true →
        ldLineMatch fe lib_name line = none) ∧
    (∀ (fe : String → Bool) (arrow : Bool) (rest : List String) (tgt : String),
        ldLineMatch fe "ssl" ⟨arrow, "libssl3-custom" :: rest, tgt⟩ = none) ∧
    (∀ (fe : String → Bool) (lib_name : String) (line : LdLine) (p : String),
        ldLineMatch fe lib_name line = some p → p = line.target ∧ fe p = true) := by
  refine ⟨?_, ?_, ?_⟩
  · intro fe lib_name line soname rest htok hsuf
    cases hm : ldLineMatch fe lib_name line with
    | none => rfl
    | some p =>
      obtain ⟨-, ⟨soname', rest', heq, -, hsuf', -⟩, -, -⟩ :=
        (ldLineMatch_eq_some fe lib_name line p).mp hm
      rw [htok] at heq
      injection heq with h1 h2
      subst h1
      rw [hsuf] at hsuf'
      cases hsuf'
  · intro fe arrow rest tgt
    cases hm : ldLineMatch fe "ssl" ⟨arrow, "libssl3-custom" :: rest, tgt⟩ with
    | none => rfl
    | some p =>
      obtain ⟨-, ⟨soname', rest', heq, -, -, hre⟩, -, -⟩ :=
        (ldLineMatch_eq_some fe "ssl" _ p).mp hm
      injection heq with h1 h2
      subst h1
      have : regexSearchLib "ssl".data "libssl3-custom".data = false := by decide
      rw [this] at hre
      cases hre
  · intro fe lib_name line p hm
    obtain ⟨-, -, hfe, hp⟩ := (ldLineMatch_eq_some fe lib_name line p).mp hm
    exact ⟨hp, hp ▸ hfe⟩

/-- Claim C3, witness: `libssl-custom` (bad suffix head) and `libssl3-custom`
(no `.so`) are both rejected for `ssl`; `libssl.so.3` is accepted and the
acceptance implies its path exists. -/
theorem C3_witness :
    ldLineMatch (fun _ => true) "ssl" ⟨true, ["libssl-custom"], "/a"⟩ = none ∧
    ldLineMatch (fun _ => true) "ssl" ⟨true, ["libssl3-custom"], "/b"⟩ = none ∧
    ("/usr/lib/libssl.so.3" = "/usr/lib/libssl.so.3" ∧
      (fun (_ : String) => true) "/usr/lib/libssl.so.3" = true) := by
  refine ⟨?_, C3_cache_suffix_filter.2.1 _ true [] "/b", ?_⟩
  · exact C3_cache_suffix_filter.1 _ "ssl" _ "libssl-custom" [] rfl (by decide)
  · exact C3_cache_suffix_filter.2.2 (fun _ => true) "ssl"
      ⟨true, ["libssl.so.3"], "/usr/lib/libssl.so.3"⟩ "/usr/lib/libssl.so.3" (by decide)

/-- Claim C4: when every required library resolves, `collect_link_args`
returns normally; an optional library that resolves only via the tier-3 cache
contributes its cache path verbatim to the returned link list; the unresolved
optional names are exactly the omitted ones, aggregated into one non-fatal
warning event; and the build exits 0 when everything else succeeds. -/
theorem C4_optional_nonfatal (env : BuildEnv) (required optional_ : List String)
    (o p : String)
    (hreq : ∀ l ∈ required, (resolve_library env.renv l).isSome = true)
    (ho : o ∈ optional_)
    (h1 : tier1 env.renv o = none) (h2 : tier2 env.renv o = none)
    (h3 : tier3 env.renv o = some p)
    (hsh : ∀ f, env.shaderCode f = 0)
    (har : env.arCode = 0)
    (hlink : ∀ b, env.linkCode b = 0) :
    resolve_library env.renv o = some p ∧
    collect_link_args env.renv required optional_ =
      Except.ok
        (required.filterMap (resolve_library env.renv) ++
           optional_.filterMap (resolve_library env.renv),
         optional_.filter fun l => (resolve_library env.renv l).isNone) ∧
    p ∈ required.filterMap (resolve_library env.renv) ++
          optional_.filterMap (resolve_library env.renv) ∧
    ((optional_.filter fun l => (resolve_library env.renv l).isNone) ≠ [] →
      Ev.skipOptional (optional_.filter fun l => (resolve_library env.renv l).isNone) ∈
        (runBuild env required optional_).1) ∧
    (runBuild env required optional_).2 = 0 := by
  have hres : resolve_library env.renv o = some p := by
    unfold resolve_library
    rw [h1, h2]
    exact h3
  have hmiss : (required.filter fun l => (resolve_library env.renv l).isNone) = [] := by
    rw [List.filter_eq_nil_iff]
    intro l hl
    simp [Option.isNone_iff_eq_none]
    obtain ⟨v, hv⟩ := Option.isSome_iff_exists.mp (hreq l hl)
    simp [hv]
  have hcla : collect_link_args env.renv required optional_ =
      Except.ok
        (required.filterMap (resolve_library env.renv) ++
           optional_.filterMap (resolve_library env.renv),
         optional_.filter fun l => (resolve_library env.renv l).isNone) := by
    unfold collect_link_args
    rw [collectLoop_eq, collectLoop_eq]
    simp only [hmiss, if_pos]
  have hshp : (shaderPhase env env.shaderListing).2 = none :=
    shaderPhase_all_ok env _ fun f _ => hsh f
  have hlnk : (linkPhase env main_sources).2 = 0 :=
    linkPhase_all_ok env _ fun s _ => hlink _
  refine ⟨hres, hcla, ?_, ?_, ?_⟩
  · exact List.mem_append_right _ (List.mem_filterMap.mpr ⟨o, ho, hres⟩)
  · intro hne
    unfold runBuild
    rw [hcla]
    dsimp only
    rw [if_neg hne, hshp]
    dsimp only
    rw [if_pos har]
    simp
  · unfold runBuild
    rw [hcla]
    dsimp only
    rw [hshp]
    dsimp only
    rw [if_pos har]
    exact hlnk

/-- Claim C4, witness: required `m` resolves via tier 1, optional `z` resolves
only via the tier-3 cache (path contributed verbatim), optional `png` is
missing (warning only), and the build exits 0. -/
theorem C4_witness :
    resolve_library c4env.renv "z" = some "/usr/lib/libz.so.1" ∧
    collect_link_args c4env.renv ["m"] ["z", "png"] =
      Except.ok
        ((["m"] : List String).filterMap (resolve_library c4env.renv) ++
           (["z", "png"] : List String).filterMap (resolve_library c4env.renv),
         (["z", "png"] : List String).filter fun l => (resolve_library c4env.renv l).isNone) ∧
    "/usr/lib/libz.so.1" ∈
      (["m"] : List String).filterMap (resolve_library c4env.renv) ++
        (["z", "png"] : List String).filterMap (resolve_library c4env.renv) ∧
    (((["z", "png"] : List String).filter fun l => (resolve_library c4env.renv l).isNone) ≠ [] →
      Ev.skipOptional
          ((["z", "png"] : List String).filter fun l => (resolve_library c4env.renv l).isNone) ∈
        (runBuild c4env ["m"] ["z", "png"]).1) ∧
    (runBuild c4env ["m"] ["z", "png"]).2 = 0 :=
  C4_optional_nonfatal c4env ["m"] ["z", "png"] "z" "/usr/lib/libz.so.1"
    (by decide) (by decide) (by decide) (by decide) (by decide)
    (fun _ => rfl) rfl (fun _ => rfl)

/-- Claim C5, counterexample: discovery does not partition the sources into
disjoint classes cut by entry-point names. The entry point `motive3d.cpp` (no
`main` substring) is also collected as a library unit, and the non-entry
source `domain.cpp` (contains `main`) lands in neither class. -/
theorem C5_counterexample :
    "motive3d.cpp" ∈ so_sources ["motive3d.cpp", "motive2d.cpp", "engine.cpp"] ∧
    "motive3d.cpp" ∈ main_sources ∧
    "domain.cpp" ∉ so_sources ["domain.cpp", "engine.cpp"] ∧
    "domain.cpp" ∉ main_sources ∧
    "domain.cpp" ∉ motive_main_sources := by
  decide

/-- Claim C5, amended: library units are exactly the listed sources with the
`.cpp` extension whose name does not contain the substring `main` (not
"everything that is not an entry-point name"); the classes need not be
disjoint — an entry point such as `motive3d.cpp`, when listed, is also a
library unit — and each library unit maps to exactly one object file. -/
theorem C5_amended_partition (listing : List String) (f : String) :
    (f ∈ so_sources listing ↔
      f ∈ listing ∧ strEndsWith ".cpp" f = true ∧ hasSubstrS "main" f = false) ∧
    ("motive3d.cpp" ∈ listing →
      "motive3d.cpp" ∈ so_sources listing ∧ "motive3d.cpp" ∈ main_sources) ∧
    (so_objects listing).length = (so_sources listing).length := by
  refine ⟨?_, ?_, ?_⟩
  · unfold so_sources
    rw [List.mem_filter]
    simp [Bool.and_eq_true, Bool.not_eq_true']
  · intro h
    refine ⟨List.mem_filter.mpr ⟨h, by decide⟩, by decide⟩
  · exact List.length_map _ _

/-- Claim C5, witness: the characterization and the overlap at a concrete
listing. -/
theorem C5_witness :
    ("engine.cpp" ∈ so_sources ["motive3d.cpp", "engine.cpp"] ↔
      "engine.cpp" ∈ ["motive3d.cpp", "engine.cpp"] ∧
        strEndsWith ".cpp" "engine.cpp" = true ∧ hasSubstrS "main" "engine.cpp" = false) ∧
    ("motive3d.cpp" ∈ so_sources ["motive3d.cpp", "engine.cpp"] ∧
      "motive3d.cpp" ∈ main_sources) := by
  exact ⟨(C5_amended_partition ["motive3d.cpp", "engine.cpp"] "engine.cpp").1,
    (C5_amended_partition ["motive3d.cpp", "engine.cpp"] "engine.cpp").2.1 (by decide)⟩

/-- Claim C6, counterexample: `getReqs.py`'s `setup_vulkan_headers` issues
`git pull` whenever the tree is present, even in an environment whose
repository is pinned (detached HEAD) — a pinned dependency does trigger a
network update there. -/
theorem C6_counterexample :
    grPinnedEnv.pathExists "Vulkan-Headers" = true ∧
    is_detached_head grPinnedEnv "Vulkan-Headers" = true ∧
    DAct.run "git pull" (some "Vulkan-Headers") ∈
      getReqs_setup_vulkan_headers grPinnedEnv := by
  decide

/-- Claim C6, amended: in `build_deps.py`, for the dependencies whose setup
consults the revision mode (Vulkan-Headers, FFmpeg, FreeType): when the tree
is present and pinned (detached HEAD), no `git pull` is issued and the skip is
logged (for Vulkan-Headers and FFmpeg the whole trace is the two log lines;
for FreeType no pull occurs anywhere in the trace); when present and tracking,
a `git pull` for that tree is always issued. `getReqs.py`'s Vulkan-Headers
setup, by contrast, pulls unconditionally (see the counterexample), and the
GLFW/tinygltf/GLM setups never consult the revision mode. -/
theorem C6_amended_pinned_vs_tracking (env : DepsEnv) :
    (env.pathExists "Vulkan-Headers" = true → is_detached_head env "Vulkan-Headers" = true →
      setup_vulkan_headers env =
        [DAct.echo "Vulkan-Headers exists, checking for updates...",
         DAct.echo "Vulkan-Headers is detached (pinned submodule commit); skipping git pull."]) ∧
    (env.pathExists "Vulkan-Headers" = true → is_detached_head env "Vulkan-Headers" = false →
      DAct.run "git pull" (some "Vulkan-Headers") ∈ setup_vulkan_headers env) ∧
    (env.pathExists "FFmpeg" = true → is_detached_head env "FFmpeg" = true →
      setup_ffmpeg env =
        [DAct.echo "FFmpeg repository already present, pulling latest changes...",
         DAct.echo "FFmpeg repository is detached; skipping git pull."]) ∧
    (env.pathExists "FFmpeg" = true → is_detached_head env "FFmpeg" = false →
      DAct.run "git pull" (some "FFmpeg") ∈ setup_ffmpeg env) ∧
    (env.pathExists "freetype" = true → is_detached_head env "freetype" = true →
      (∀ c, DAct.run "git pull" c ∉ setup_freetype env) ∧
      DAct.echo "FreeType repository is detached; skipping git pull." ∈ setup_freetype env) ∧
    (env.pathExists "freetype" = true → is_detached_head env "freetype" = false →
      DAct.run "git pull" (some "freetype") ∈ setup_freetype env) := by
  refine ⟨?_, ?_, ?_, ?_, ?_, ?_⟩
  · intro hex hdet
    unfold setup_vulkan_headers ensure_exists_or_exit
    rw [if_pos hex, if_pos hdet]
  · intro hex hdet
    unfold setup_vulkan_headers ensure_exists_or_exit
    rw [if_pos hex, if_neg (by simp [hdet])]
    exact List.mem_cons_of_mem _ (run_command_self_mem env _ _ _)
  · intro hex hdet
    unfold setup_ffmpeg
    rw [if_pos hex, if_pos hdet]
  · intro hex hdet
    unfold setup_ffmpeg
    rw [if_pos hex, if_neg (by simp [hdet])]
    exact List.mem_cons_of_mem _ (run_command_self_mem env _ _ _)
  · intro hex hdet
    constructor
    · intro c hmem
      unfold setup_freetype at hmem
      rw [if_pos hex, if_pos hdet] at hmem
      simp only [List.mem_cons] at hmem
      rcases hmem with h | h | h
      · cases h
      · cases h
      · exact freetypeBuild_no_pull env c h
    · unfold setup_freetype
      rw [if_pos hex, if_pos hdet]
      simp
  · intro hex hdet
    unfold setup_freetype
    rw [if_pos hex, if_neg (by simp [hdet])]
    exact List.mem_cons_of_mem _ (run_command_self_mem env _ _ _)

/-- Claim C6, witness: concrete pinned and tracking environments. -/
theorem C6_witness :
    setup_vulkan_headers bdPinnedEnv =
      [DAct.echo "Vulkan-Headers exists, checking for updates...",
       DAct.echo "Vulkan-Headers is detached (pinned submodule commit); skipping git pull."] ∧
    (∀ c, DAct.run "git pull" c ∉ setup_freetype bdPinnedEnv) ∧
    DAct.run "git pull" (some "Vulkan-Headers") ∈ setup_vulkan_headers bdTrackingEnv ∧
    DAct.run "git pull" (some "FFmpeg") ∈ setup_ffmpeg bdTrackingEnv ∧
    DAct.run "git pull" (some "freetype") ∈ setup_freetype bdTrackingEnv :=
  ⟨(C6_amended_pinned_vs_tracking bdPinnedEnv).1 rfl rfl,
   ((C6_amended_pinned_vs_tracking bdPinnedEnv).2.2.2.2.1 rfl rfl).1,
   (C6_amended_pinned_vs_tracking bdTrackingEnv).2.1 rfl rfl,
   (C6_amended_pinned_vs_tracking bdTrackingEnv).2.2.2.1 rfl rfl,
   (C6_amended_pinned_vs_tracking bdTrackingEnv).2.2.2.2.2 rfl rfl⟩

/-- Claim C7, counterexample: in an environment where all build artifacts from
a previous run are present (every path exists, including `glfw/build` and its
outputs), `setup_glfw` still issues its cmake configure and make commands —
the GLFW build step is not detected as done and not skipped. -/
theorem C7_counterexample :
    c7BuiltEnv.pathExists "glfw/build" = true ∧
    c7BuiltEnv.pathExists "tinygltf/tiny_gltf.o" = true ∧
    DAct.run "cmake .. -DCMAKE_BUILD_TYPE=Release" (some "glfw/build") ∈ setup_glfw c7BuiltEnv ∧
    DAct.run "make -j4" (some "glfw/build") ∈ setup_glfw c7BuiltEnv := by
  decide

/-- Claim C7, amended: only tinygltf (when `tinygltf/tiny_gltf.o` exists) and
nv-codec-headers (when `/usr/include/ffnvcodec` exists) detect existing
artifacts and skip their build step — their traces contain no build command at
all; GLFW re-runs its cmake configure on every bootstrap run that reaches it
(and FFmpeg and FreeType likewise re-run their builds). -/
theorem C7_amended_skip_detection (env : DepsEnv)
    (ht : env.pathExists "tinygltf" = true)
    (hto : env.pathExists "tinygltf/tiny_gltf.o" = true)
    (hff : env.pathExists "/usr/include/ffnvcodec" = true)
    (hg : env.pathExists "glfw" = true)
    (hw : env.pkgExists "wayland-client" = true)
    (hx : x11Pkgs.all env.pkgExists = true) :
    setup_tinygltf env = [] ∧
    setup_ffnvcodec env =
      [DAct.echo "nv-codec-headers already installed in /usr/include/ffnvcodec; skipping."] ∧
    DAct.run "cmake .. -DCMAKE_BUILD_TYPE=Release" (some "glfw/build") ∈ setup_glfw env := by
  refine ⟨?_, ?_, ?_⟩
  · unfold setup_tinygltf ensure_exists_or_exit
    rw [if_pos ht, if_pos hto]
  · unfold setup_ffnvcodec
    rw [if_pos hff]
  · unfold setup_glfw ensure_exists_or_exit
    rw [if_pos hg]
    refine List.mem_cons_of_mem _ (List.mem_cons_of_mem _ ?_)
    dsimp only
    rw [hw, hx]
    rw [if_neg (by simp)]
    unfold glfwBuild
    dsimp only
    rw [if_neg (by simp), if_neg (by simp)]
    simp only [List.nil_append]
    rw [show ("cmake .. " ++ String.intercalate " " ["-DCMAKE_BUILD_TYPE=Release"]) =
      "cmake .. -DCMAKE_BUILD_TYPE=Release" from by decide]
    exact run_command_self_mem env _ _ _

/-- Claim C7, witness: concrete environment with artifacts present. -/
theorem C7_witness :
    setup_tinygltf c7SkipEnv = [] ∧
    setup_ffnvcodec c7SkipEnv =
      [DAct.echo "nv-codec-headers already installed in /usr/include/ffnvcodec; skipping."] ∧
    DAct.run "cmake .. -DCMAKE_BUILD_TYPE=Release" (some "glfw/build") ∈ setup_glfw c7SkipEnv :=
  C7_amended_skip_detection c7SkipEnv rfl rfl rfl rfl rfl (by decide)

/-- Claim C8: when the compiler reports, for `lib<name>.so` or `lib<name>.a`,
a path that is non-empty, distinct from the bare file name and existing,
`resolve_library` succeeds with the conventional flag form `-l<name>` — in any
environment, hence regardless of what tiers 2 and 3 would say. -/
theorem C8_tier1_first (env : ResolveEnv) (name ext : String)
    (hext : ext = ".so" ∨ ext = ".a")
    (hne : env.printFileName ("lib" ++ name ++ ext) ≠ "")
    (hbare : env.printFileName ("lib" ++ name ++ ext) ≠ "lib" ++ name ++ ext)
    (hex : env.fileExists (env.printFileName ("lib" ++ name ++ ext)) = true) :
    resolve_library env name = some ("-l" ++ name) := by
  unfold resolve_library
  rw [tier1_succeeds env name ext hext hne hbare hex]

/-- Claim C8, witness: an environment with empty `lib_paths` and no ldconfig
(tiers 2 and 3 cannot resolve anything) still resolves `m` to `-lm` via
tier 1. -/
theorem C8_witness : resolve_library c8env "m" = some ("-l" ++ "m") :=
  C8_tier1_first c8env "m" ".so" (Or.inl rfl) (by decide) (by decide) (by decide)

/-- Claim C9: for every environment, the Vulkan hardware feature is
force-skipped: no `--enable-vulkan` flag ever enters the returned flag list,
while the human-readable reason (with the required version and the found
version or "not found") is always appended to the same skipped-descriptions
list used for ordinary probe failures. -/
theorem C9_vulkan_force_skip (env : DepsEnv) :
    "--enable-vulkan" ∉ (determine_hwaccel_flags env).flags ∧
    vulkanSkipMsg env ∈ (determine_hwaccel_flags env).skipped_descriptions := by
  unfold determine_hwaccel_flags
  by_cases hc : (cuda_available env && ffnvcodec_available env) = true
  · rw [if_pos hc]
    dsimp only
    constructor
    · intro h
      rcases List.mem_append.mp h with h | h
      · have := probeFeatures_flags_sub env pkg_features _ h
        revert this
        decide
      · revert h
        decide
    · exact List.mem_append_right _ (List.mem_singleton.mpr rfl)
  · rw [if_neg hc]
    dsimp only
    constructor
    · intro h
      have := probeFeatures_flags_sub env pkg_features _ h
      revert this
      decide
    · exact List.mem_append_left _ (List.mem_append_right _ (List.mem_singleton.mpr rfl))

/-- Claim C9, witness: concrete environment with nothing available. -/
theorem C9_witness :
    "--enable-vulkan" ∉ (determine_hwaccel_flags c9env).flags ∧
    vulkanSkipMsg c9env ∈ (determine_hwaccel_flags c9env).skipped_descriptions :=
  C9_vulkan_force_skip c9env

/-- Claim C10: when tier 1 and tier 2 both fail and `ldconfig` is not on the
search path, `resolve_library` returns `none` without consulting the cache —
even in environments whose cache lines do contain a matching entry. -/
theorem C10_no_ldconfig (env : ResolveEnv) (name : String)
    (h1 : tier1 env name = none) (h2 : tier2 env name = none)
    (h3 : env.ldconfigAvailable = false) :
    resolve_library env name = none := by
  unfold resolve_library
  rw [h1, h2]
  unfold tier3
  rw [h3]
  simp

/-- Claim C10, witness: `c10env`'s cache line for `z` would match (shown
per-line), yet resolution fails because `ldconfig` is absent. -/
theorem C10_witness :
    ldLineMatch c10env.fileExists "z" ⟨true, ["libz.so.1"], "/usr/lib/libz.so.1"⟩ =
      some "/usr/lib/libz.so.1" ∧
    resolve_library c10env "z" = none :=
  ⟨by decide, C10_no_ldconfig c10env "z" (by decide) (by decide) rfl⟩

end Motive
